import Mathlib

/-!
Shallow embedding of the FIFA rivalry tracker backend (src/backend/main.py).

Collections of the Mongo document store are modelled as Lean lists:
`players` is a list of (ObjectId, Player) pairs and `matches` a list of
match documents carrying their own id.  ObjectIds are modelled as opaque
natural numbers (every Nat is a valid id, so the `ObjectId.is_valid`
guards of the code are always satisfied).  Datetimes are modelled as a
calendar day plus a tick within the day, ordered lexicographically, which
is exactly what sorting on a Mongo datetime field gives; the `.date()`
projection of the code is the `day` component.  Python integers are
unbounded, so integer fields are `Int`.
-/

namespace FifaRivalry

/-- Decidable equality for handler outcomes, so that concrete runs can be
checked by `decide`. -/
instance {ε α : Type} [DecidableEq ε] [DecidableEq α] : DecidableEq (Except ε α) := fun x y =>
  match x, y with
  | .ok a, .ok b =>
    if h : a = b then .isTrue (by rw [h])
    else .isFalse (fun hc => h (by injection hc))
  | .error a, .error b =>
    if h : a = b then .isTrue (by rw [h])
    else .isFalse (fun hc => h (by injection hc))
  | .ok _, .error _ => .isFalse (fun hc => by injection hc)
  | .error _, .ok _ => .isFalse (fun hc => by injection hc)

/-- Calendar datetime: a day number and a tick within the day.  Sorting by
the full datetime is the lexicographic order on (day, tick). -/
structure DateTime where
  day : Nat
  tick : Nat
deriving Repr, DecidableEq

/-- Boolean comparison mirroring Mongo sort on a datetime field. -/
def dtLe (a b : DateTime) : Bool :=
  decide (a.day < b.day) || (a.day == b.day && decide (a.tick ≤ b.tick))

/-- Error outcomes of the HTTP handlers: 404 player/match not found,
400 invalid input (negative goals, failed write), 400 duplicate name. -/
inductive Err where
  | notFound
  | invalidInput
  | duplicate
deriving Repr, DecidableEq

/-- Player document: display name plus the denormalized running totals,
mirroring the `Player` pydantic model and the fields written by
`register_player` and the aggregate updates. -/
structure Player where
  name : String
  total_matches : Int
  total_goals_scored : Int
  total_goals_conceded : Int
  goal_difference : Int
  wins : Int
  losses : Int
  draws : Int
  points : Int
deriving Repr, DecidableEq

/-- The all-zero aggregate block written by `register_player`. -/
def freshPlayer (name : String) : Player :=
  { name := name
    total_matches := 0
    total_goals_scored := 0
    total_goals_conceded := 0
    goal_difference := 0
    wins := 0
    losses := 0
    draws := 0
    points := 0 }

/-- Field deltas of one `$inc` update on a player document. -/
structure StatDelta where
  total_matches : Int
  total_goals_scored : Int
  total_goals_conceded : Int
  goal_difference : Int
  wins : Int
  losses : Int
  draws : Int
  points : Int
deriving Repr, DecidableEq

/-- Apply a `$inc` update to a player document. -/
def incPlayer (d : StatDelta) (p : Player) : Player :=
  { name := p.name
    total_matches := p.total_matches + d.total_matches
    total_goals_scored := p.total_goals_scored + d.total_goals_scored
    total_goals_conceded := p.total_goals_conceded + d.total_goals_conceded
    goal_difference := p.goal_difference + d.goal_difference
    wins := p.wins + d.wins
    losses := p.losses + d.losses
    draws := p.draws + d.draws
    points := p.points + d.points }

/-- Match document as stored in the `matches` collection. -/
structure MatchDoc where
  id : Nat
  player1_id : Nat
  player2_id : Nat
  player1_goals : Int
  player2_goals : Int
  date : DateTime
  team1 : String
  team2 : String
  tournament_id : Option Nat
deriving Repr, DecidableEq

/-- Request body of POST /matches (`MatchCreate`). -/
structure MatchCreate where
  player1_id : Nat
  player2_id : Nat
  player1_goals : Int
  player2_goals : Int
  team1 : String
  team2 : String
  tournament_id : Option Nat
deriving Repr, DecidableEq

/-- Request body of PUT /matches/:id (`MatchUpdate`). -/
structure MatchUpdate where
  player1_goals : Int
  player2_goals : Int
deriving Repr, DecidableEq

/-- The document store: the `players` and `matches` collections plus a
counter supplying fresh ObjectIds. -/
structure DB where
  players : List (Nat × Player)
  matchesColl : List MatchDoc
  nextId : Nat
deriving Repr, DecidableEq

/-- Mongo `update_one`: rewrite the first list element satisfying the
filter, leave everything else in place. -/
def updateFirst (p : α → Bool) (f : α → α) : List α → List α
  | [] => []
  | x :: xs => if p x then f x :: xs else x :: updateFirst p f xs

/-- Mongo `db.players.find_one({"_id": pid})`. -/
def findPlayer (db : DB) (pid : Nat) : Option Player :=
  (db.players.find? (fun pr => pr.1 == pid)).map (fun pr => pr.2)

/-- Mongo `db.matchesColl.find_one({"_id": mid})`. -/
def findMatch (db : DB) (mid : Nat) : Option MatchDoc :=
  db.matchesColl.find? (fun m => m.id == mid)

/-- The `get_result` helper (src/backend/main.py lines 642-656): outcome of
a match from one side, as the {win, loss, draw} indicator record. -/
structure GameResult where
  win : Int
  loss : Int
  draw : Int
deriving Repr, DecidableEq

def get_result (player1_goals player2_goals : Int) (is_player1 : Bool) : GameResult :=
  if is_player1 then
    if player1_goals > player2_goals then ⟨1, 0, 0⟩
    else if player1_goals < player2_goals then ⟨0, 1, 0⟩
    else ⟨0, 0, 1⟩
  else
    if player2_goals > player1_goals then ⟨1, 0, 0⟩
    else if player2_goals < player1_goals then ⟨0, 1, 0⟩
    else ⟨0, 0, 1⟩

/-- Point value credited for a result: `record_match` adds 3 points on a
win and 1 on a draw, and `update_match` increments points by
`wins_diff * 3 + draws_diff`. -/
def pointsOf (r : GameResult) : Int := 3 * r.win + 1 * r.draw

/-- The `$inc` block of `record_match` for one player, given the goals it
scored and conceded in the new match. -/
def matchDelta (scored conceded : Int) : StatDelta :=
  { total_matches := 1
    total_goals_scored := scored
    total_goals_conceded := conceded
    goal_difference := scored - conceded
    wins := if scored > conceded then 1 else 0
    losses := if scored < conceded then 1 else 0
    draws := if scored = conceded then 1 else 0
    points := if scored > conceded then 3 else if scored = conceded then 1 else 0 }

/-- POST /players (`register_player`): reject a duplicate name, otherwise
insert a player document with all aggregates zero. -/
def registerPlayer (db : DB) (name : String) : Except Err DB :=
  if db.players.any (fun pr => pr.2.name == name) then
    .error .duplicate
  else
    .ok { players := db.players ++ [(db.nextId, freshPlayer name)]
          matchesColl := db.matchesColl
          nextId := db.nextId + 1 }

/-- POST /matches (`record_match`): look up both players (404 if either is
missing, before any write), insert the match document, then `$inc` each
player document in turn.  Note: the goal counts are not validated. -/
def recordMatch (db : DB) (mc : MatchCreate) (now : DateTime) : Except Err (DB × MatchDoc) :=
  match findPlayer db mc.player1_id, findPlayer db mc.player2_id with
  | some _, some _ =>
    let doc : MatchDoc :=
      { id := db.nextId
        player1_id := mc.player1_id
        player2_id := mc.player2_id
        player1_goals := mc.player1_goals
        player2_goals := mc.player2_goals
        date := now
        team1 := mc.team1
        team2 := mc.team2
        tournament_id := mc.tournament_id }
    let players1 := updateFirst (fun pr => pr.1 == mc.player1_id)
      (fun pr => (pr.1, incPlayer (matchDelta mc.player1_goals mc.player2_goals) pr.2))
      db.players
    let players2 := updateFirst (fun pr => pr.1 == mc.player2_id)
      (fun pr => (pr.1, incPlayer (matchDelta mc.player2_goals mc.player1_goals) pr.2))
      players1
    .ok ({ players := players2, matchesColl := db.matchesColl ++ [doc], nextId := db.nextId + 1 }, doc)
  | _, _ => .error .notFound

/-- State reached by POST /matches: the new state on success, the old
state when the handler raised before mutating. -/
def recordMatchStep (db : DB) (mc : MatchCreate) (now : DateTime) : DB :=
  match recordMatch db mc now with
  | .ok (db2, _) => db2
  | .error _ => db

/-- The `$inc` block of `update_match` for one player: the goal diffs from
that player and the win/loss/draw diffs between the old and new results. -/
def editDelta (goals_diff opponent_goals_diff wins_diff losses_diff draws_diff : Int) : StatDelta :=
  { total_matches := 0
    total_goals_scored := goals_diff
    total_goals_conceded := opponent_goals_diff
    goal_difference := goals_diff - opponent_goals_diff
    wins := wins_diff
    losses := losses_diff
    draws := draws_diff
    points := wins_diff * 3 + draws_diff }

/-- The full `$inc` block of `update_match` for one player: the win, loss
and draw diffs come from `get_result` on the old and the new score, from
the perspective `player_id == match.player1_id`. -/
def editDeltaFor (m : MatchDoc) (mu : MatchUpdate) (pid : Nat)
    (goals_diff opponent_goals_diff : Int) : StatDelta :=
  let old_result := get_result m.player1_goals m.player2_goals (pid == m.player1_id)
  let new_result := get_result mu.player1_goals mu.player2_goals (pid == m.player1_id)
  editDelta goals_diff opponent_goals_diff
    (new_result.win - old_result.win)
    (new_result.loss - old_result.loss)
    (new_result.draw - old_result.draw)

/-- One iteration of the player-update loop of `update_match` (lines
578-625): look up the player (on a miss the anomaly is logged and the
player is skipped), compute the result diffs via `get_result`, skip the
write when every diff is zero, otherwise `$inc` the player document. -/
def editPlayerStep (m : MatchDoc) (mu : MatchUpdate) (pid : Nat)
    (goals_diff opponent_goals_diff : Int) (players : List (Nat × Player)) :
    List (Nat × Player) :=
  match players.find? (fun pr => pr.1 == pid) with
  | none => players
  | some _ =>
    let d := editDeltaFor m mu pid goals_diff opponent_goals_diff
    if goals_diff = 0 ∧ opponent_goals_diff = 0 ∧ d.wins = 0 ∧ d.losses = 0 ∧ d.draws = 0 then
      players
    else
      updateFirst (fun pr => pr.1 == pid)
        (fun pr => (pr.1, incPlayer d pr.2))
        players

/-- PUT /matches/:id (`update_match`, lines 534-639): find the match (404),
reject negative goals (400) before any write, short-circuit when both goal
values are unchanged, otherwise set the new goals on the match document and
apply the delta updates to the two player documents. -/
def updateMatch (db : DB) (match_id : Nat) (mu : MatchUpdate) : Except Err (DB × MatchDoc) :=
  match db.matchesColl.find? (fun m => m.id == match_id) with
  | none => .error .notFound
  | some m =>
    if mu.player1_goals < 0 ∨ mu.player2_goals < 0 then .error .invalidInput
    else
      let player1_goals_diff := mu.player1_goals - m.player1_goals
      let player2_goals_diff := mu.player2_goals - m.player2_goals
      if player1_goals_diff = 0 ∧ player2_goals_diff = 0 then .ok (db, m)
      else
        let matches2 := updateFirst (fun x => x.id == match_id)
          (fun x => { x with player1_goals := mu.player1_goals, player2_goals := mu.player2_goals })
          db.matchesColl
        -- update_one reports matched_count == 0 when no document matched
        if db.matchesColl.any (fun x => x.id == match_id) then
          let players1 := editPlayerStep m mu m.player1_id player1_goals_diff player2_goals_diff db.players
          let players2 := editPlayerStep m mu m.player2_id player2_goals_diff player1_goals_diff players1
          match matches2.find? (fun x => x.id == match_id) with
          | none => .error .notFound
          | some m2 =>
            .ok ({ players := players2, matchesColl := matches2, nextId := db.nextId }, m2)
        else .error .invalidInput

/-- State reached by PUT /matches/:id, old state when the handler raised. -/
def updateMatchStep (db : DB) (match_id : Nat) (mu : MatchUpdate) : DB :=
  match updateMatch db match_id mu with
  | .ok (db2, _) => db2
  | .error _ => db

/-- DELETE /player/:id (`delete_player`, lines 478-507): 404 when the
player does not exist, otherwise delete every match referencing the player
on either side, then delete the player document. -/
def deletePlayer (db : DB) (pid : Nat) : Except Err DB :=
  match findPlayer db pid with
  | none => .error .notFound
  | some _ =>
    let matches2 := db.matchesColl.filter
      (fun m => !(m.player1_id == pid || m.player2_id == pid))
    -- delete_one reports deleted_count == 0 when no document matched
    if db.players.any (fun pr => pr.1 == pid) then
      .ok { players := db.players.eraseP (fun pr => pr.1 == pid)
            matchesColl := matches2
            nextId := db.nextId }
    else .error .invalidInput

/-- Stable insertion into a list sorted by `le`. -/
def insertSorted (le : α → α → Bool) (a : α) : List α → List α
  | [] => [a]
  | x :: xs => if le a x then a :: x :: xs else x :: insertSorted le a xs

/-- Stable sort by `le`, modelling a Mongo cursor `.sort(...)`. -/
def sortListBy (le : α → α → Bool) : List α → List α
  | [] => []
  | x :: xs => insertSorted le x (sortListBy le xs)

/-- GET /players (`get_players`): `find().to_list(1000)`. -/
def getPlayersList (db : DB) : List (Nat × Player) :=
  db.players.take 1000

/-- GET /matches (`get_matches`): all matches, newest first, capped. -/
def getMatchesList (db : DB) : List MatchDoc :=
  (sortListBy (fun a b => dtLe b.date a.date) db.matchesColl).take 1000

/-- Does the match reference the player on either side. -/
def involves (pid : Nat) (m : MatchDoc) : Bool :=
  m.player1_id == pid || m.player2_id == pid

/-- GET /player/:id/matches (`get_player_matches`): the player on either
side, newest first, capped. -/
def getPlayerMatchesList (db : DB) (pid : Nat) : List MatchDoc :=
  (sortListBy (fun a b => dtLe b.date a.date) (db.matchesColl.filter (involves pid))).take 1000

/-- The match query of `get_head_to_head_stats` (lines 309-316): the pair
in either order, capped by `to_list(1000)`. -/
def headToHeadMatches (db : DB) (player1_id player2_id : Nat) : List MatchDoc :=
  (db.matchesColl.filter (fun m =>
    (m.player1_id == player1_id && m.player2_id == player2_id) ||
    (m.player1_id == player2_id && m.player2_id == player1_id))).take 1000

/-- The match query of `get_player_detailed_stats` (lines 380-386): the
player on either side, sorted by date ascending, capped by `to_list(1000)`. -/
def detailedStatsMatches (db : DB) (pid : Nat) : List MatchDoc :=
  (sortListBy (fun a b => dtLe a.date b.date) (db.matchesColl.filter (involves pid))).take 1000

/-- Mutable tallies of the head-to-head loop (lines 318-347). -/
structure H2HTallies where
  player1_wins : Int
  player2_wins : Int
  draws : Int
  player1_goals : Int
  player2_goals : Int
deriving Repr, DecidableEq

/-- One iteration of the head-to-head loop: accumulate goals and the
outcome from the perspective of `player1_id`. -/
def h2hStep (player1_id : Nat) (acc : H2HTallies) (m : MatchDoc) : H2HTallies :=
  if m.player1_id == player1_id then
    { acc with
      player1_goals := acc.player1_goals + m.player1_goals
      player2_goals := acc.player2_goals + m.player2_goals
      player1_wins := acc.player1_wins + (if m.player1_goals > m.player2_goals then 1 else 0)
      player2_wins := acc.player2_wins + (if m.player1_goals < m.player2_goals then 1 else 0)
      draws := acc.draws + (if m.player1_goals > m.player2_goals ∨ m.player1_goals < m.player2_goals then 0 else 1) }
  else
    { acc with
      player1_goals := acc.player1_goals + m.player2_goals
      player2_goals := acc.player2_goals + m.player1_goals
      player1_wins := acc.player1_wins + (if m.player1_goals < m.player2_goals then 1 else 0)
      player2_wins := acc.player2_wins + (if m.player1_goals > m.player2_goals then 1 else 0)
      draws := acc.draws + (if m.player1_goals < m.player2_goals ∨ m.player1_goals > m.player2_goals then 0 else 1) }

/-- Response of GET /head-to-head (`HeadToHeadStats`); the win rates and
goal averages are exact rationals in the model. -/
structure HeadToHeadStats where
  player1_name : String
  player2_name : String
  total_matches : Nat
  player1_wins : Int
  player2_wins : Int
  draws : Int
  player1_goals : Int
  player2_goals : Int
  player1_win_rate : ℚ
  player2_win_rate : ℚ
  player1_avg_goals : ℚ
  player2_avg_goals : ℚ
deriving Repr, DecidableEq

/-- GET /head-to-head/:p1/:p2 (`get_head_to_head_stats`, lines 301-371). -/
def getHeadToHead (db : DB) (player1_id player2_id : Nat) : Except Err HeadToHeadStats :=
  match findPlayer db player1_id, findPlayer db player2_id with
  | some p1, some p2 =>
    let ms := headToHeadMatches db player1_id player2_id
    let t := ms.foldl (h2hStep player1_id) ⟨0, 0, 0, 0, 0⟩
    let total : Nat := ms.length
    .ok { player1_name := p1.name
          player2_name := p2.name
          total_matches := total
          player1_wins := t.player1_wins
          player2_wins := t.player2_wins
          draws := t.draws
          player1_goals := t.player1_goals
          player2_goals := t.player2_goals
          player1_win_rate := if total > 0 then (t.player1_wins : ℚ) / (total : ℚ) else 0
          player2_win_rate := if total > 0 then (t.player2_wins : ℚ) / (total : ℚ) else 0
          player1_avg_goals := if total > 0 then (t.player1_goals : ℚ) / (total : ℚ) else 0
          player2_avg_goals := if total > 0 then (t.player2_goals : ℚ) / (total : ℚ) else 0 }
  | _, _ => .error .notFound

/-- Goals of the given player in a match, resolving the perspective the
way the winrate loop does (`is_player1 = match.player1_id == player_id`). -/
def playerGoals (pid : Nat) (m : MatchDoc) : Int :=
  if m.player1_id == pid then m.player1_goals else m.player2_goals

/-- Goals of the opponent of the given player in a match. -/
def opponentGoals (pid : Nat) (m : MatchDoc) : Int :=
  if m.player1_id == pid then m.player2_goals else m.player1_goals

/-- Did the given player win the match. -/
def isWin (pid : Nat) (m : MatchDoc) : Bool :=
  decide (playerGoals pid m > opponentGoals pid m)

/-- Split off the leading run of matches on the given calendar day,
mirroring one group of `itertools.groupby(matches, key=date)`. -/
def takeRun (d : Nat) : List MatchDoc → List MatchDoc × List MatchDoc
  | [] => ([], [])
  | m :: rest =>
    if m.date.day = d then
      let pr := takeRun d rest
      (m :: pr.1, pr.2)
    else ([], m :: rest)

theorem takeRun_snd_length_le (d : Nat) (l : List MatchDoc) :
    (takeRun d l).2.length ≤ l.length := by
  induction l with
  | nil => simp [takeRun]
  | cons m rest ih =>
    by_cases h : m.date.day = d
    · simp only [takeRun, h, if_pos, List.length_cons]
      have := ih
      omega
    · simp [takeRun, h]

/-- Group the list into maximal runs of equal calendar day, as
`itertools.groupby` does on consecutive keys. -/
def groupByDate : List MatchDoc → List (Nat × List MatchDoc)
  | [] => []
  | m :: rest =>
    let pr := takeRun m.date.day rest
    (m.date.day, m :: pr.1) :: groupByDate pr.2
termination_by l => l.length
decreasing_by
  have := takeRun_snd_length_le m.date.day rest
  simp only [List.length_cons]
  omega

/-- The per-day loop of `get_player_detailed_stats` (lines 430-446): walk
the groups, keep running cumulative match and win counts, and emit one
(date, winrate) point per group. -/
def winrateLoop (pid : Nat) : List (Nat × List MatchDoc) → Nat → Nat → List (Nat × ℚ)
  | [], _, _ => []
  | (d, run) :: rest, total_matches, total_wins =>
    let tm := total_matches + run.length
    let tw := total_wins + run.countP (isWin pid)
    (d, if tm > 0 then (tw : ℚ) / (tm : ℚ) else 0) :: winrateLoop pid rest tm tw

/-- The winrate-over-time series of `get_player_detailed_stats` (lines
425-446), computed over the match list of its query. -/
def winrate_over_time (pid : Nat) (ms : List MatchDoc) : List (Nat × ℚ) :=
  winrateLoop pid (groupByDate ms) 0 0

/-- Distinct values of a list in order of first appearance. -/
def distinctDays : List Nat → List Nat
  | [] => []
  | d :: ds => d :: distinctDays (ds.filter (fun x => x ≠ d))
termination_by l => l.length
decreasing_by
  have := List.length_filter_le (fun x => x ≠ d) ds
  simp only [List.length_cons]
  omega

/-- Specification rendering of winrate_over_time, following the words of
the spec: one point per distinct calendar date, whose winrate is the
cumulative win count over the cumulative match count of all matches up to
and including that date. -/
def winrateSpec (pid : Nat) (ms : List MatchDoc) : List (Nat × ℚ) :=
  (distinctDays (ms.map (fun m => m.date.day))).map (fun d =>
    let upTo := ms.filter (fun m => m.date.day ≤ d)
    (d, if upTo.length > 0 then (upTo.countP (isWin pid) : ℚ) / (upTo.length : ℚ) else 0))

/-- An operation of the write API relevant to the aggregate invariants. -/
inductive Op where
  | register (name : String)
  | record (mc : MatchCreate) (now : DateTime)
deriving Repr, DecidableEq

/-- Apply one operation; a handler that raised leaves the store unchanged. -/
def applyOp (db : DB) : Op → DB
  | .register name =>
    match registerPlayer db name with
    | .ok db2 => db2
    | .error _ => db
  | .record mc now => recordMatchStep db mc now

/-- Run a sequence of operations from a given store. -/
def runOps (db : DB) : List Op → DB
  | [] => db
  | op :: ops => runOps (applyOp db op) ops

/-- The empty document store. -/
def emptyDB : DB := { players := [], matchesColl := [], nextId := 0 }

/-- The aggregate invariant of the spec on one player document. -/
def playerInv (p : Player) : Prop :=
  p.points = 3 * p.wins + p.draws ∧
  p.goal_difference = p.total_goals_scored - p.total_goals_conceded ∧
  p.total_matches = p.wins + p.losses + p.draws

/-- Every stored player document satisfies the aggregate invariant. -/
def dbInv (db : DB) : Prop :=
  ∀ pr ∈ db.players, playerInv pr.2

/-! ### Lemmas about `updateFirst` -/

theorem updateFirst_id (p : α → Bool) (l : List α) :
    updateFirst p (fun x => x) l = l := by
  induction l with
  | nil => rfl
  | cons x xs ih =>
    by_cases h : p x <;> simp [updateFirst, h, ih]

theorem updateFirst_congr (p : α → Bool) (f g : α → α) (l : List α)
    (h : ∀ x, f x = g x) : updateFirst p f l = updateFirst p g l := by
  induction l with
  | nil => rfl
  | cons x xs ih =>
    by_cases hp : p x <;> simp [updateFirst, hp, h, ih]

theorem updateFirst_merge (p : α → Bool) (f g : α → α) (l : List α)
    (hg : ∀ x, p (g x) = p x) :
    updateFirst p f (updateFirst p g l) = updateFirst p (fun x => f (g x)) l := by
  induction l with
  | nil => rfl
  | cons x xs ih =>
    by_cases hp : p x
    · simp [updateFirst, hp, hg]
    · simp [updateFirst, hp, ih]

theorem updateFirst_comm (p q : α → Bool) (f g : α → α) (l : List α)
    (hpq : ∀ x, p x = true → q x = false)
    (hf : ∀ x, q (f x) = q x) (hg : ∀ x, p (g x) = p x) :
    updateFirst q g (updateFirst p f l) = updateFirst p f (updateFirst q g l) := by
  induction l with
  | nil => rfl
  | cons x xs ih =>
    by_cases hp : p x
    · have hq : q x = false := hpq x hp
      simp [updateFirst, hp, hq, hf, hg]
    · by_cases hq : q x
      · simp [updateFirst, hp, hq, hf, hg]
      · simp [updateFirst, hp, hq, ih]

theorem find?_updateFirst_self (p : α → Bool) (f : α → α) (l : List α)
    (hf : ∀ x, p (f x) = p x) :
    List.find? p (updateFirst p f l) = (List.find? p l).map f := by
  induction l with
  | nil => rfl
  | cons x xs ih =>
    by_cases hp : p x
    · simp [updateFirst, hp, List.find?_cons, hf]
    · simp [updateFirst, hp, List.find?_cons, ih]

theorem find?_updateFirst_other (p q : α → Bool) (f : α → α) (l : List α)
    (hpq : ∀ x, p x = true → q x = false)
    (hf : ∀ x, p (f x) = p x) :
    List.find? q (updateFirst p f l) = List.find? q l := by
  induction l with
  | nil => rfl
  | cons x xs ih =>
    by_cases hp : p x
    · have hqx : q x = false := hpq x hp
      have hqfx : q (f x) = false := by
        have := hpq (f x)
        rw [hf x] at this
        exact this hp
      simp [updateFirst, hp, List.find?_cons, hqx, hqfx]
    · by_cases hq : q x <;> simp [updateFirst, hp, hq, List.find?_cons, ih]

theorem updateFirst_cancel (p : α → Bool) (f g : α → α) (l : List α) (a : α)
    (hg : ∀ x, p (g x) = p x)
    (hfind : List.find? p l = some a) (hback : f (g a) = a) :
    updateFirst p f (updateFirst p g l) = l := by
  induction l with
  | nil => simp at hfind
  | cons x xs ih =>
    by_cases hp : p x
    · rw [List.find?_cons_of_pos _ hp] at hfind
      injection hfind with hx
      rw [← hx] at hback
      have hpg : p (g x) = true := by rw [hg]; exact hp
      simp [updateFirst, hp, hpg, hback]
    · rw [List.find?_cons_of_neg _ hp] at hfind
      simp [updateFirst, hp, ih hfind]

theorem mem_updateFirst {p : α → Bool} {f : α → α} {l : List α} {x : α}
    (hx : x ∈ updateFirst p f l) : x ∈ l ∨ ∃ y ∈ l, x = f y := by
  induction l with
  | nil => simp [updateFirst] at hx
  | cons z zs ih =>
    by_cases hp : p z
    · simp [updateFirst, hp] at hx
      rcases hx with hx | hx
      · exact Or.inr ⟨z, by simp, hx⟩
      · exact Or.inl (by simp [hx])
    · simp [updateFirst, hp] at hx
      rcases hx with hx | hx
      · exact Or.inl (by simp [hx])
      · rcases ih hx with h | ⟨y, hy, hfy⟩
        · exact Or.inl (by simp [h])
        · exact Or.inr ⟨y, by simp [hy], hfy⟩

/-! ### Claim C3: the Result Calculator -/

/-- Exactly one of win, loss, draw is set to 1 and the other two to 0. -/
def exactlyOneOutcome (r : GameResult) : Prop :=
  (r.win = 1 ∧ r.loss = 0 ∧ r.draw = 0) ∨
  (r.win = 0 ∧ r.loss = 1 ∧ r.draw = 0) ∨
  (r.win = 0 ∧ r.loss = 0 ∧ r.draw = 1)

/-- C3: for all non-negative integer goal counts and either perspective
flag, `get_result` returns exactly one of the fields win, loss, draw set
to 1 and the other two set to 0, and the point value credited for that
result is 3 for a win, 1 for a draw, and 0 for a loss. -/
theorem get_result_exclusive_and_points (g1 g2 : Int) (is_p1 : Bool)
    (_h1 : 0 ≤ g1) (_h2 : 0 ≤ g2) :
    exactlyOneOutcome (get_result g1 g2 is_p1) ∧
    ((get_result g1 g2 is_p1).win = 1 → pointsOf (get_result g1 g2 is_p1) = 3) ∧
    ((get_result g1 g2 is_p1).draw = 1 → pointsOf (get_result g1 g2 is_p1) = 1) ∧
    ((get_result g1 g2 is_p1).loss = 1 → pointsOf (get_result g1 g2 is_p1) = 0) := by
  cases is_p1 <;>
    simp only [get_result, exactlyOneOutcome, pointsOf] <;>
    split_ifs <;> norm_num

/-- Witness for C3 at goals 2:1 from the player1 perspective. -/
theorem get_result_exclusive_and_points_witness :
    exactlyOneOutcome (get_result 2 1 true) ∧
    ((get_result 2 1 true).win = 1 → pointsOf (get_result 2 1 true) = 3) ∧
    ((get_result 2 1 true).draw = 1 → pointsOf (get_result 2 1 true) = 1) ∧
    ((get_result 2 1 true).loss = 1 → pointsOf (get_result 2 1 true) = 0) :=
  get_result_exclusive_and_points 2 1 true (by norm_num) (by norm_num)

/-! ### Claim C6: record_match aborts with no mutation on a missing player -/

/-- C6: when the lookup of either referenced player fails, `record_match`
reports a not-found failure, no match document is inserted and no player
aggregate is changed: the resulting store is the old store. -/
theorem record_match_missing_player_aborts (db : DB) (mc : MatchCreate) (now : DateTime)
    (h : findPlayer db mc.player1_id = none ∨ findPlayer db mc.player2_id = none) :
    recordMatch db mc now = .error .notFound ∧ recordMatchStep db mc now = db := by
  have herr : recordMatch db mc now = .error .notFound := by
    unfold recordMatch
    rcases h with h | h
    · rw [h]
    · rw [h]
      cases findPlayer db mc.player1_id <;> rfl
  exact ⟨herr, by unfold recordMatchStep; rw [herr]⟩

/-- Witness for C6: recording a match between unregistered ids 0 and 1 on
the empty store fails and leaves the store empty. -/
theorem record_match_missing_player_aborts_witness :
    recordMatch emptyDB ⟨0, 1, 2, 0, "A", "B", none⟩ ⟨0, 0⟩ = .error .notFound ∧
    recordMatchStep emptyDB ⟨0, 1, 2, 0, "A", "B", none⟩ ⟨0, 0⟩ = emptyDB :=
  record_match_missing_player_aborts emptyDB ⟨0, 1, 2, 0, "A", "B", none⟩ ⟨0, 0⟩
    (Or.inl rfl)

/-! ### Claim C7: record_match does not validate negative goal counts -/

/-- Store for the C7 failing input: two registered players, no matches. -/
def c7db : DB :=
  { players := [(0, freshPlayer "Alice"), (1, freshPlayer "Bob")]
    matchesColl := []
    nextId := 2 }

/-- The C7 failing input: a create-match request with a negative goal count. -/
def c7mc : MatchCreate := ⟨0, 1, -1, 2, "A", "B", none⟩

/-- C7 is a bug of the code: `record_match` performs no validation of the
goal counts (`MatchCreate` declares them as plain ints), so a request with
player1_goals = -1 between two existing players is not rejected: it
succeeds, inserts the match document and updates both player aggregates,
leaving Alice with -1 goals scored, contrary to the InvalidInput rejection
the spec requires (and contrary to update_match, which does reject
negative goals). -/
theorem record_match_accepts_negative_goals :
    (recordMatch c7db c7mc ⟨0, 0⟩).toOption.isSome = true ∧
    (recordMatchStep c7db c7mc ⟨0, 0⟩).matchesColl.length = 1 ∧
    findPlayer (recordMatchStep c7db c7mc ⟨0, 0⟩) 0 =
      some { name := "Alice", total_matches := 1, total_goals_scored := -1,
             total_goals_conceded := 2, goal_difference := -3, wins := 0,
             losses := 1, draws := 0, points := 0 } := by
  decide

/-! ### Claim C10: every collection read is capped at 1000 documents -/

/-- C10: list players, list matches, list the matches of a player, and the
match scans underlying head-to-head and detailed player stats all pass
their cursor to `to_list(1000)`, so each considers at most the first 1000
matching documents. -/
theorem collection_reads_capped (db : DB) (pid a b : Nat) :
    (getPlayersList db).length ≤ 1000 ∧
    (getMatchesList db).length ≤ 1000 ∧
    (getPlayerMatchesList db pid).length ≤ 1000 ∧
    (headToHeadMatches db a b).length ≤ 1000 ∧
    (detailedStatsMatches db pid).length ≤ 1000 := by
  refine ⟨?_, ?_, ?_, ?_, ?_⟩ <;>
    simp [getPlayersList, getMatchesList, getPlayerMatchesList,
      headToHeadMatches, detailedStatsMatches, List.length_take]

/-! ### Claim C1: the aggregate invariants under registration and match creation -/

theorem playerInv_freshPlayer (name : String) : playerInv (freshPlayer name) := by
  simp [playerInv, freshPlayer]

theorem playerInv_inc_matchDelta (s c : Int) (p : Player) (h : playerInv p) :
    playerInv (incPlayer (matchDelta s c) p) := by
  obtain ⟨h1, h2, h3⟩ := h
  simp only [playerInv, incPlayer, matchDelta]
  split_ifs <;> refine ⟨by omega, by omega, by omega⟩

theorem dbInv_registerPlayer (db : DB) (name : String) (h : dbInv db) :
    dbInv (applyOp db (.register name)) := by
  simp only [applyOp, registerPlayer]
  split_ifs with hdup
  · exact h
  · intro pr hpr
    simp only [List.mem_append, List.mem_singleton] at hpr
    rcases hpr with hpr | hpr
    · exact h pr hpr
    · rw [hpr]
      exact playerInv_freshPlayer name

theorem dbInv_recordMatch (db : DB) (mc : MatchCreate) (now : DateTime) (h : dbInv db) :
    dbInv (applyOp db (.record mc now)) := by
  simp only [applyOp, recordMatchStep, recordMatch]
  cases hp1 : findPlayer db mc.player1_id with
  | none => simpa using h
  | some p1 =>
    cases hp2 : findPlayer db mc.player2_id with
    | none => simpa using h
    | some p2 =>
      intro pr hpr
      simp only at hpr
      rcases mem_updateFirst hpr with hpr1 | ⟨q, hq, hfq⟩
      · rcases mem_updateFirst hpr1 with hpr2 | ⟨q, hq, hfq⟩
        · exact h pr hpr2
        · rw [hfq]
          exact playerInv_inc_matchDelta _ _ _ (h q hq)
      · rcases mem_updateFirst hq with hq1 | ⟨q2, hq2, hfq2⟩
        · rw [hfq]
          exact playerInv_inc_matchDelta _ _ _ (h q hq1)
        · rw [hfq, hfq2]
          exact playerInv_inc_matchDelta _ _ _ (playerInv_inc_matchDelta _ _ _ (h q2 hq2))

theorem dbInv_runOps (db : DB) (ops : List Op) (h : dbInv db) :
    dbInv (runOps db ops) := by
  induction ops generalizing db with
  | nil => exact h
  | cons op ops ih =>
    refine ih (applyOp db op) ?_
    cases op with
    | register name => exact dbInv_registerPlayer db name h
    | record mc now => exact dbInv_recordMatch db mc now h

/-- C1: for every sequence of registrations and match recordings starting
from the empty store (so every player starts with all aggregates zero),
every stored player satisfies points = 3*wins + draws,
goal_difference = total_goals_scored - total_goals_conceded and
total_matches = wins + losses + draws.  Every prefix of a sequence is
itself a sequence, so the invariant holds after each operation. -/
theorem aggregate_invariants_hold (ops : List Op) : dbInv (runOps emptyDB ops) :=
  dbInv_runOps emptyDB ops (by intro pr hpr; simp [emptyDB] at hpr)

/-! ### Claim C9: delete_player cascades over the matches of the player -/

/-- The store produced by a successful `delete_player`: the player record
erased, every match referencing the player on either side removed. -/
def cascadeDelete (db : DB) (pid : Nat) : DB :=
  { players := db.players.eraseP (fun pr => pr.1 == pid)
    matchesColl := db.matchesColl.filter
      (fun m => !(m.player1_id == pid || m.player2_id == pid))
    nextId := db.nextId }

/-- C9: on an existing player, `delete_player` succeeds, deleting every
match that references the player on either side together with the player
record; afterwards a lookup of any of those match ids returns not-found
(match ids are pairwise distinct, as Mongo `_id`s are). -/
theorem delete_player_cascades (db : DB) (pid : Nat) (p : Player)
    (hfound : findPlayer db pid = some p)
    (hids : (db.matchesColl.map (fun m => m.id)).Nodup) :
    deletePlayer db pid = .ok (cascadeDelete db pid) ∧
    ∀ m ∈ db.matchesColl, (m.player1_id = pid ∨ m.player2_id = pid) →
      findMatch (cascadeDelete db pid) m.id = none := by
  have hany : db.players.any (fun pr => pr.1 == pid) = true := by
    unfold findPlayer at hfound
    cases hf : db.players.find? (fun pr => pr.1 == pid) with
    | none => rw [hf] at hfound; simp at hfound
    | some pr =>
      have hp := List.find?_some hf
      exact List.any_eq_true.mpr ⟨pr, List.mem_of_find?_eq_some hf, hp⟩
  constructor
  · unfold deletePlayer
    rw [hfound]
    simp only [hany, if_true]
    rfl
  · intro m hm href
    unfold findMatch cascadeDelete
    simp only []
    rw [List.find?_eq_none]
    intro x hx hbeq
    simp only [List.mem_filter] at hx
    obtain ⟨hxmem, hxkeep⟩ := hx
    have hxid : x.id = m.id := by simpa using hbeq
    have hxm : x = m := List.inj_on_of_nodup_map hids hxmem hm hxid
    rw [hxm] at hxkeep
    rcases href with h | h <;> simp [h] at hxkeep

/-- Store for the C9 witness: two players and one match between them. -/
def c9db : DB :=
  { players := [(1, freshPlayer "Alice"), (2, freshPlayer "Bob")]
    matchesColl := [{ id := 5, player1_id := 1, player2_id := 2,
                      player1_goals := 3, player2_goals := 1,
                      date := ⟨0, 0⟩, team1 := "A", team2 := "B",
                      tournament_id := none }]
    nextId := 6 }

/-- Witness for C9: deleting player 1 of `c9db` succeeds and the id of the
cascaded match afterwards resolves to nothing. -/
theorem delete_player_cascades_witness :
    deletePlayer c9db 1 = .ok (cascadeDelete c9db 1) ∧
    findMatch (cascadeDelete c9db 1) 5 = none := by
  have h := delete_player_cascades c9db 1 (freshPlayer "Alice") rfl (by decide)
  refine ⟨h.1, ?_⟩
  have h2 := h.2 { id := 5, player1_id := 1, player2_id := 2,
                   player1_goals := 3, player2_goals := 1,
                   date := ⟨0, 0⟩, team1 := "A", team2 := "B",
                   tournament_id := none } (by simp [c9db]) (Or.inl rfl)
  exact h2

/-! ### Claim C5: head-to-head tallies partition the matches -/

theorem h2h_sum (p1id : Nat) (ms : List MatchDoc) (acc : H2HTallies) :
    (ms.foldl (h2hStep p1id) acc).player1_wins +
      (ms.foldl (h2hStep p1id) acc).player2_wins +
      (ms.foldl (h2hStep p1id) acc).draws =
    acc.player1_wins + acc.player2_wins + acc.draws + ms.length := by
  induction ms generalizing acc with
  | nil => simp
  | cons m rest ih =>
    simp only [List.foldl_cons, List.length_cons]
    rw [ih]
    unfold h2hStep
    split_ifs <;> simp <;> omega

/-- C5: for existing players a and b, the head-to-head response satisfies
player1_wins + player2_wins + draws = total_matches, where total_matches
counts the stored matches between a and b with the pair in either order
(all of them whenever at most 1000 match, the cap of the read described by
C10), and each win rate is the wins divided by total_matches, 0 when
total_matches is 0. -/
theorem head_to_head_partition (db : DB) (a b : Nat) (s : HeadToHeadStats)
    (hcap : (db.matchesColl.filter (fun m =>
        (m.player1_id == a && m.player2_id == b) ||
        (m.player1_id == b && m.player2_id == a))).length ≤ 1000)
    (hok : getHeadToHead db a b = .ok s) :
    s.player1_wins + s.player2_wins + s.draws = (s.total_matches : Int) ∧
    s.total_matches = (db.matchesColl.filter (fun m =>
        (m.player1_id == a && m.player2_id == b) ||
        (m.player1_id == b && m.player2_id == a))).length ∧
    s.player1_win_rate =
      (if s.total_matches = 0 then 0 else (s.player1_wins : ℚ) / (s.total_matches : ℚ)) ∧
    s.player2_win_rate =
      (if s.total_matches = 0 then 0 else (s.player2_wins : ℚ) / (s.total_matches : ℚ)) := by
  unfold getHeadToHead at hok
  cases hp1 : findPlayer db a with
  | none => rw [hp1] at hok; simp at hok
  | some p1 =>
    cases hp2 : findPlayer db b with
    | none => rw [hp1, hp2] at hok; simp at hok
    | some p2 =>
      rw [hp1, hp2] at hok
      simp only [Except.ok.injEq] at hok
      subst hok
      have hall : headToHeadMatches db a b = db.matchesColl.filter (fun m =>
          (m.player1_id == a && m.player2_id == b) ||
          (m.player1_id == b && m.player2_id == a)) := by
        unfold headToHeadMatches
        exact List.take_of_length_le hcap
      refine ⟨?_, ?_, ?_, ?_⟩
      · have h := h2h_sum a (headToHeadMatches db a b) ⟨0, 0, 0, 0, 0⟩
        simpa using h
      · simpa using congrArg List.length hall
      · by_cases h : (headToHeadMatches db a b).length = 0 <;>
          simp [h, Nat.pos_of_ne_zero]
      · by_cases h : (headToHeadMatches db a b).length = 0 <;>
          simp [h, Nat.pos_of_ne_zero]

/-- Store for the C5 witness: Alice and Bob, no matches yet (goal
divisions do not reduce in the kernel, so the witness takes the
total_matches = 0 branch). -/
def c5db : DB :=
  { players := [(1, freshPlayer "Alice"), (2, freshPlayer "Bob")]
    matchesColl := []
    nextId := 6 }

/-- The head-to-head response of `c5db` for the pair (1, 2). -/
def c5stats : HeadToHeadStats :=
  { player1_name := "Alice", player2_name := "Bob", total_matches := 0,
    player1_wins := 0, player2_wins := 0, draws := 0,
    player1_goals := 0, player2_goals := 0,
    player1_win_rate := 0, player2_win_rate := 0,
    player1_avg_goals := 0, player2_avg_goals := 0 }

/-- Witness for C5 on `c5db`. -/
theorem head_to_head_partition_witness :
    c5stats.player1_wins + c5stats.player2_wins + c5stats.draws = (c5stats.total_matches : Int) ∧
    c5stats.total_matches = (c5db.matchesColl.filter (fun m =>
        (m.player1_id == 1 && m.player2_id == 2) ||
        (m.player1_id == 2 && m.player2_id == 1))).length ∧
    c5stats.player1_win_rate =
      (if c5stats.total_matches = 0 then 0 else (c5stats.player1_wins : ℚ) / (c5stats.total_matches : ℚ)) ∧
    c5stats.player2_win_rate =
      (if c5stats.total_matches = 0 then 0 else (c5stats.player2_wins : ℚ) / (c5stats.total_matches : ℚ)) :=
  head_to_head_partition c5db 1 2 c5stats (by decide) (by decide)

/-! ### Claim C2: editing a match and editing it back restores the store -/

theorem find?_updateFirst_isSome (p q : α → Bool) (f : α → α) (l : List α)
    (hf : ∀ x, q (f x) = q x) :
    (List.find? q (updateFirst p f l)).isSome = (List.find? q l).isSome := by
  induction l with
  | nil => rfl
  | cons x xs ih =>
    by_cases hp : p x <;> by_cases hq : q x <;>
      simp [updateFirst, hp, hq, hf, List.find?_cons, ih]

theorem incPlayer_eq_self (d : StatDelta) (p : Player)
    (h0 : d.total_matches = 0) (h1 : d.total_goals_scored = 0)
    (h2 : d.total_goals_conceded = 0) (h3 : d.goal_difference = 0)
    (h4 : d.wins = 0) (h5 : d.losses = 0) (h6 : d.draws = 0) (h7 : d.points = 0) :
    incPlayer d p = p := by
  cases p
  cases d
  simp only at h0 h1 h2 h3 h4 h5 h6 h7
  simp [incPlayer, h0, h1, h2, h3, h4, h5, h6, h7]

theorem editPlayerStep_eq (m : MatchDoc) (mu : MatchUpdate) (pid : Nat)
    (gd ogd : Int) (players : List (Nat × Player))
    (hfound : (players.find? (fun pr => pr.1 == pid)).isSome = true) :
    editPlayerStep m mu pid gd ogd players =
      updateFirst (fun pr => pr.1 == pid)
        (fun pr => (pr.1, incPlayer (editDeltaFor m mu pid gd ogd) pr.2)) players := by
  cases hf : players.find? (fun pr => pr.1 == pid) with
  | none => rw [hf] at hfound; simp at hfound
  | some pr =>
    unfold editPlayerStep
    rw [hf]
    dsimp only
    split_ifs with hc
    · obtain ⟨h1, h2, h3, h4, h5⟩ := hc
      have hz : ∀ x : Nat × Player,
          (fun y : Nat × Player =>
            (y.1, incPlayer (editDeltaFor m mu pid gd ogd) y.2)) x = (fun y => y) x := by
        intro x
        have hpts : (editDeltaFor m mu pid gd ogd).points = 0 := by
          have h3a : (editDeltaFor m mu pid gd ogd).wins = 0 := h3
          have h5a : (editDeltaFor m mu pid gd ogd).draws = 0 := h5
          show (editDeltaFor m mu pid gd ogd).wins * 3 + (editDeltaFor m mu pid gd ogd).draws = 0
          omega
        have hgd : (editDeltaFor m mu pid gd ogd).goal_difference = 0 := by
          show gd - ogd = 0
          omega
        have hinc := incPlayer_eq_self (editDeltaFor m mu pid gd ogd) x.2
          rfl h1 h2 hgd h3 h4 h5 hpts
        simp [hinc]
      rw [updateFirst_congr _ _ (fun y => y) _ hz, updateFirst_id]
    · rfl

theorem updateMatch_noop (db : DB) (mid : Nat) (m : MatchDoc)
    (hm : db.matchesColl.find? (fun x => x.id == mid) = some m)
    (h1 : 0 ≤ m.player1_goals) (h2 : 0 ≤ m.player2_goals) :
    updateMatch db mid ⟨m.player1_goals, m.player2_goals⟩ = .ok (db, m) := by
  unfold updateMatch
  rw [hm]
  dsimp only
  rw [if_neg (by omega), if_pos (by constructor <;> omega)]

theorem updateMatch_ok (db : DB) (mid : Nat) (m : MatchDoc) (mu : MatchUpdate)
    (hm : db.matchesColl.find? (fun x => x.id == mid) = some m)
    (hneg : ¬(mu.player1_goals < 0 ∨ mu.player2_goals < 0))
    (hdiff : ¬(mu.player1_goals - m.player1_goals = 0 ∧ mu.player2_goals - m.player2_goals = 0)) :
    updateMatch db mid mu = .ok
      ({ players := editPlayerStep m mu m.player2_id
            (mu.player2_goals - m.player2_goals) (mu.player1_goals - m.player1_goals)
            (editPlayerStep m mu m.player1_id
              (mu.player1_goals - m.player1_goals) (mu.player2_goals - m.player2_goals)
              db.players)
         matchesColl := updateFirst (fun x => x.id == mid)
            (fun x => { x with player1_goals := mu.player1_goals,
                               player2_goals := mu.player2_goals })
            db.matchesColl
         nextId := db.nextId },
       { m with player1_goals := mu.player1_goals, player2_goals := mu.player2_goals }) := by
  have hany : db.matchesColl.any (fun x => x.id == mid) = true := by
    have hp := List.find?_some hm
    exact List.any_eq_true.mpr ⟨m, List.mem_of_find?_eq_some hm, hp⟩
  have hfind2 : (updateFirst (fun x => x.id == mid)
      (fun x => { x with player1_goals := mu.player1_goals,
                         player2_goals := mu.player2_goals })
      db.matchesColl).find? (fun x => x.id == mid) =
      some { m with player1_goals := mu.player1_goals,
                    player2_goals := mu.player2_goals } := by
    rw [find?_updateFirst_self (fun x => x.id == mid)
      (fun x => { x with player1_goals := mu.player1_goals,
                         player2_goals := mu.player2_goals })
      db.matchesColl (fun x => rfl), hm]
    rfl
  unfold updateMatch
  rw [hm]
  dsimp only
  rw [if_neg hneg, if_neg hdiff, if_pos hany, hfind2]

theorem incPlayer_comm (d e : StatDelta) (p : Player) :
    incPlayer d (incPlayer e p) = incPlayer e (incPlayer d p) := by
  cases p
  simp only [incPlayer, Player.mk.injEq]
  refine ⟨trivial, ?_, ?_, ?_, ?_, ?_, ?_, ?_, ?_⟩ <;> omega

/-- Applying the edit delta of one score change and then the edit delta of
the reverse change restores the player document: every field delta is the
difference of a quantity at the new score and at the old score. -/
theorem incPlayer_pair_cancel (m : MatchDoc) (g1 g2 a1 b1 a2 b2 : Int) (pid : Nat)
    (p : Player) (ha : a1 + a2 = 0) (hb : b1 + b2 = 0) :
    incPlayer (editDeltaFor { m with player1_goals := g1, player2_goals := g2 }
        ⟨m.player1_goals, m.player2_goals⟩ pid a2 b2)
      (incPlayer (editDeltaFor m ⟨g1, g2⟩ pid a1 b1) p) = p := by
  cases p
  simp only [editDeltaFor, editDelta, incPlayer, Player.mk.injEq]
  refine ⟨trivial, ?_, ?_, ?_, ?_, ?_, ?_, ?_, ?_⟩ <;> omega

/-- Key filter of a player-document update. -/
def keyPred (k : Nat) : Nat × Player → Bool := fun pr => pr.1 == k

/-- The rewrite applied to a player document by one `update_match` `$inc`. -/
def editUpd (m : MatchDoc) (mu : MatchUpdate) (pid : Nat) (gd ogd : Int) :
    Nat × Player → Nat × Player :=
  fun pr => (pr.1, incPlayer (editDeltaFor m mu pid gd ogd) pr.2)

theorem editPlayerStep_eq_upd (m : MatchDoc) (mu : MatchUpdate) (pid : Nat)
    (gd ogd : Int) (players : List (Nat × Player))
    (hfound : (players.find? (fun pr => pr.1 == pid)).isSome = true) :
    editPlayerStep m mu pid gd ogd players =
      updateFirst (keyPred pid) (editUpd m mu pid gd ogd) players :=
  editPlayerStep_eq m mu pid gd ogd players hfound

/-- C2: for a stored match whose two referenced players exist (with the
non-negative goal counts of the data model), editing the match to any
valid goal pair and then editing it back to the original pair succeeds
and restores the document store exactly: the match record, and every
aggregate field of both players, equal their values before the first
edit. -/
theorem update_match_roundtrip (db : DB) (mid : Nat) (m : MatchDoc) (g1 g2 : Int)
    (hm : db.matchesColl.find? (fun x => x.id == mid) = some m)
    (hp1 : (db.players.find? (fun pr => pr.1 == m.player1_id)).isSome = true)
    (hp2 : (db.players.find? (fun pr => pr.1 == m.player2_id)).isSome = true)
    (hg1 : 0 ≤ g1) (hg2 : 0 ≤ g2)
    (hq1 : 0 ≤ m.player1_goals) (hq2 : 0 ≤ m.player2_goals) :
    (updateMatch db mid (MatchUpdate.mk g1 g2)).toOption.isSome = true ∧
    (updateMatch (updateMatchStep db mid (MatchUpdate.mk g1 g2)) mid
        (MatchUpdate.mk m.player1_goals m.player2_goals)).toOption.isSome = true ∧
    updateMatchStep (updateMatchStep db mid (MatchUpdate.mk g1 g2)) mid
        (MatchUpdate.mk m.player1_goals m.player2_goals) = db := by
  by_cases hno : g1 - m.player1_goals = 0 ∧ g2 - m.player2_goals = 0
  · -- both goal values unchanged: each edit is the no-write short circuit
    have hgg1 : g1 = m.player1_goals := by omega
    have hgg2 : g2 = m.player2_goals := by omega
    subst hgg1
    subst hgg2
    have e1 := updateMatch_noop db mid m hm hq1 hq2
    have hstep1 : updateMatchStep db mid (MatchUpdate.mk m.player1_goals m.player2_goals) = db := by
      unfold updateMatchStep
      rw [e1]
    refine ⟨by rw [e1]; rfl, ?_, ?_⟩
    · rw [hstep1, e1]
      rfl
    · rw [hstep1]
      exact hstep1
  · -- a real edit, followed by the reverse edit
    have e1 : updateMatch db mid (MatchUpdate.mk g1 g2) = .ok
        ({ players := editPlayerStep m (MatchUpdate.mk g1 g2) m.player2_id
              (g2 - m.player2_goals) (g1 - m.player1_goals)
              (editPlayerStep m (MatchUpdate.mk g1 g2) m.player1_id
                (g1 - m.player1_goals) (g2 - m.player2_goals) db.players)
           matchesColl := updateFirst (fun x => x.id == mid)
             (fun x => { x with player1_goals := g1, player2_goals := g2 }) db.matchesColl
           nextId := db.nextId },
         { m with player1_goals := g1, player2_goals := g2 }) :=
      updateMatch_ok db mid m (MatchUpdate.mk g1 g2) hm
        (by show ¬(g1 < 0 ∨ g2 < 0); omega) hno
    have hstep1 : updateMatchStep db mid (MatchUpdate.mk g1 g2) =
        { players := editPlayerStep m (MatchUpdate.mk g1 g2) m.player2_id
              (g2 - m.player2_goals) (g1 - m.player1_goals)
              (editPlayerStep m (MatchUpdate.mk g1 g2) m.player1_id
                (g1 - m.player1_goals) (g2 - m.player2_goals) db.players)
          matchesColl := updateFirst (fun x => x.id == mid)
            (fun x => { x with player1_goals := g1, player2_goals := g2 }) db.matchesColl
          nextId := db.nextId } := by
      unfold updateMatchStep
      rw [e1]
    have hm1find : (updateFirst (fun x => x.id == mid)
        (fun x => { x with player1_goals := g1, player2_goals := g2 })
        db.matchesColl).find? (fun x => x.id == mid) =
        some { m with player1_goals := g1, player2_goals := g2 } := by
      rw [find?_updateFirst_self (fun x => x.id == mid)
        (fun x => { x with player1_goals := g1, player2_goals := g2 })
        db.matchesColl (fun x => rfl), hm]
      rfl
    have hdiff2 : ¬(m.player1_goals - g1 = 0 ∧ m.player2_goals - g2 = 0) := by omega
    have e2 : updateMatch
        { players := editPlayerStep m (MatchUpdate.mk g1 g2) m.player2_id
              (g2 - m.player2_goals) (g1 - m.player1_goals)
              (editPlayerStep m (MatchUpdate.mk g1 g2) m.player1_id
                (g1 - m.player1_goals) (g2 - m.player2_goals) db.players)
          matchesColl := updateFirst (fun x => x.id == mid)
            (fun x => { x with player1_goals := g1, player2_goals := g2 }) db.matchesColl
          nextId := db.nextId } mid (MatchUpdate.mk m.player1_goals m.player2_goals) = .ok
        ({ players := editPlayerStep { m with player1_goals := g1, player2_goals := g2 }
              (MatchUpdate.mk m.player1_goals m.player2_goals) m.player2_id
              (m.player2_goals - g2) (m.player1_goals - g1)
              (editPlayerStep { m with player1_goals := g1, player2_goals := g2 }
                (MatchUpdate.mk m.player1_goals m.player2_goals) m.player1_id
                (m.player1_goals - g1) (m.player2_goals - g2)
                (editPlayerStep m (MatchUpdate.mk g1 g2) m.player2_id
                  (g2 - m.player2_goals) (g1 - m.player1_goals)
                  (editPlayerStep m (MatchUpdate.mk g1 g2) m.player1_id
                    (g1 - m.player1_goals) (g2 - m.player2_goals) db.players)))
           matchesColl := updateFirst (fun x => x.id == mid)
             (fun x => { x with player1_goals := m.player1_goals,
                                player2_goals := m.player2_goals })
             (updateFirst (fun x => x.id == mid)
               (fun x => { x with player1_goals := g1, player2_goals := g2 })
               db.matchesColl)
           nextId := db.nextId }, m) :=
      updateMatch_ok _ mid { m with player1_goals := g1, player2_goals := g2 }
        (MatchUpdate.mk m.player1_goals m.player2_goals) hm1find
        (by show ¬(m.player1_goals < 0 ∨ m.player2_goals < 0); omega) hdiff2
    refine ⟨by rw [e1]; rfl, ?_, ?_⟩
    · rw [hstep1, e2]
      rfl
    · rw [hstep1]
      unfold updateMatchStep
      rw [e2]
      -- the two match-collection writes cancel
      have hmat : updateFirst (fun x => x.id == mid)
          (fun x => { x with player1_goals := m.player1_goals,
                             player2_goals := m.player2_goals })
          (updateFirst (fun x => x.id == mid)
            (fun x => { x with player1_goals := g1, player2_goals := g2 })
            db.matchesColl) = db.matchesColl :=
        updateFirst_cancel (fun x => x.id == mid)
          (fun x => { x with player1_goals := m.player1_goals,
                             player2_goals := m.player2_goals })
          (fun x => { x with player1_goals := g1, player2_goals := g2 })
          db.matchesColl m (fun x => rfl) hm rfl
      -- the four player-document writes, in updateFirst form
      have hA : editPlayerStep m (MatchUpdate.mk g1 g2) m.player1_id
            (g1 - m.player1_goals) (g2 - m.player2_goals) db.players =
          updateFirst (keyPred m.player1_id)
            (editUpd m (MatchUpdate.mk g1 g2) m.player1_id
              (g1 - m.player1_goals) (g2 - m.player2_goals)) db.players :=
        editPlayerStep_eq_upd m (MatchUpdate.mk g1 g2) m.player1_id
          (g1 - m.player1_goals) (g2 - m.player2_goals) db.players hp1
      have hs2 : ((updateFirst (keyPred m.player1_id)
          (editUpd m (MatchUpdate.mk g1 g2) m.player1_id
            (g1 - m.player1_goals) (g2 - m.player2_goals)) db.players).find?
            (fun pr => pr.1 == m.player2_id)).isSome = true := by
        rw [find?_updateFirst_isSome (keyPred m.player1_id)
          (fun pr => pr.1 == m.player2_id)
          (editUpd m (MatchUpdate.mk g1 g2) m.player1_id
            (g1 - m.player1_goals) (g2 - m.player2_goals)) db.players (fun x => rfl)]
        exact hp2
      have hB : editPlayerStep m (MatchUpdate.mk g1 g2) m.player2_id
            (g2 - m.player2_goals) (g1 - m.player1_goals)
            (updateFirst (keyPred m.player1_id)
              (editUpd m (MatchUpdate.mk g1 g2) m.player1_id
                (g1 - m.player1_goals) (g2 - m.player2_goals)) db.players) =
          updateFirst (keyPred m.player2_id)
            (editUpd m (MatchUpdate.mk g1 g2) m.player2_id
              (g2 - m.player2_goals) (g1 - m.player1_goals))
            (updateFirst (keyPred m.player1_id)
              (editUpd m (MatchUpdate.mk g1 g2) m.player1_id
                (g1 - m.player1_goals) (g2 - m.player2_goals)) db.players) :=
        editPlayerStep_eq_upd m (MatchUpdate.mk g1 g2) m.player2_id
          (g2 - m.player2_goals) (g1 - m.player1_goals) _ hs2
      have hs3 : ((updateFirst (keyPred m.player2_id)
          (editUpd m (MatchUpdate.mk g1 g2) m.player2_id
            (g2 - m.player2_goals) (g1 - m.player1_goals))
          (updateFirst (keyPred m.player1_id)
            (editUpd m (MatchUpdate.mk g1 g2) m.player1_id
              (g1 - m.player1_goals) (g2 - m.player2_goals)) db.players)).find?
            (fun pr => pr.1 == m.player1_id)).isSome = true := by
        rw [find?_updateFirst_isSome (keyPred m.player2_id)
          (fun pr => pr.1 == m.player1_id)
          (editUpd m (MatchUpdate.mk g1 g2) m.player2_id
            (g2 - m.player2_goals) (g1 - m.player1_goals)) _ (fun x => rfl),
          find?_updateFirst_isSome (keyPred m.player1_id)
          (fun pr => pr.1 == m.player1_id)
          (editUpd m (MatchUpdate.mk g1 g2) m.player1_id
            (g1 - m.player1_goals) (g2 - m.player2_goals)) db.players (fun x => rfl)]
        exact hp1
      have hC : editPlayerStep { m with player1_goals := g1, player2_goals := g2 }
            (MatchUpdate.mk m.player1_goals m.player2_goals) m.player1_id
            (m.player1_goals - g1) (m.player2_goals - g2)
            (updateFirst (keyPred m.player2_id)
              (editUpd m (MatchUpdate.mk g1 g2) m.player2_id
                (g2 - m.player2_goals) (g1 - m.player1_goals))
              (updateFirst (keyPred m.player1_id)
                (editUpd m (MatchUpdate.mk g1 g2) m.player1_id
                  (g1 - m.player1_goals) (g2 - m.player2_goals)) db.players)) =
          updateFirst (keyPred m.player1_id)
            (editUpd { m with player1_goals := g1, player2_goals := g2 }
              (MatchUpdate.mk m.player1_goals m.player2_goals) m.player1_id
              (m.player1_goals - g1) (m.player2_goals - g2))
            (updateFirst (keyPred m.player2_id)
              (editUpd m (MatchUpdate.mk g1 g2) m.player2_id
                (g2 - m.player2_goals) (g1 - m.player1_goals))
              (updateFirst (keyPred m.player1_id)
                (editUpd m (MatchUpdate.mk g1 g2) m.player1_id
                  (g1 - m.player1_goals) (g2 - m.player2_goals)) db.players)) :=
        editPlayerStep_eq_upd { m with player1_goals := g1, player2_goals := g2 }
          (MatchUpdate.mk m.player1_goals m.player2_goals) m.player1_id
          (m.player1_goals - g1) (m.player2_goals - g2) _ hs3
      have hs4 : ((updateFirst (keyPred m.player1_id)
          (editUpd { m with player1_goals := g1, player2_goals := g2 }
            (MatchUpdate.mk m.player1_goals m.player2_goals) m.player1_id
            (m.player1_goals - g1) (m.player2_goals - g2))
          (updateFirst (keyPred m.player2_id)
            (editUpd m (MatchUpdate.mk g1 g2) m.player2_id
              (g2 - m.player2_goals) (g1 - m.player1_goals))
            (updateFirst (keyPred m.player1_id)
              (editUpd m (MatchUpdate.mk g1 g2) m.player1_id
                (g1 - m.player1_goals) (g2 - m.player2_goals)) db.players))).find?
            (fun pr => pr.1 == m.player2_id)).isSome = true := by
        rw [find?_updateFirst_isSome (keyPred m.player1_id)
          (fun pr => pr.1 == m.player2_id)
          (editUpd { m with player1_goals := g1, player2_goals := g2 }
            (MatchUpdate.mk m.player1_goals m.player2_goals) m.player1_id
            (m.player1_goals - g1) (m.player2_goals - g2)) _ (fun x => rfl),
          find?_updateFirst_isSome (keyPred m.player2_id)
          (fun pr => pr.1 == m.player2_id)
          (editUpd m (MatchUpdate.mk g1 g2) m.player2_id
            (g2 - m.player2_goals) (g1 - m.player1_goals)) _ (fun x => rfl),
          find?_updateFirst_isSome (keyPred m.player1_id)
          (fun pr => pr.1 == m.player2_id)
          (editUpd m (MatchUpdate.mk g1 g2) m.player1_id
            (g1 - m.player1_goals) (g2 - m.player2_goals)) db.players (fun x => rfl)]
        exact hp2
      have hD : editPlayerStep { m with player1_goals := g1, player2_goals := g2 }
            (MatchUpdate.mk m.player1_goals m.player2_goals) m.player2_id
            (m.player2_goals - g2) (m.player1_goals - g1)
            (updateFirst (keyPred m.player1_id)
              (editUpd { m with player1_goals := g1, player2_goals := g2 }
                (MatchUpdate.mk m.player1_goals m.player2_goals) m.player1_id
                (m.player1_goals - g1) (m.player2_goals - g2))
              (updateFirst (keyPred m.player2_id)
                (editUpd m (MatchUpdate.mk g1 g2) m.player2_id
                  (g2 - m.player2_goals) (g1 - m.player1_goals))
                (updateFirst (keyPred m.player1_id)
                  (editUpd m (MatchUpdate.mk g1 g2) m.player1_id
                    (g1 - m.player1_goals) (g2 - m.player2_goals)) db.players))) =
          updateFirst (keyPred m.player2_id)
            (editUpd { m with player1_goals := g1, player2_goals := g2 }
              (MatchUpdate.mk m.player1_goals m.player2_goals) m.player2_id
              (m.player2_goals - g2) (m.player1_goals - g1))
            (updateFirst (keyPred m.player1_id)
              (editUpd { m with player1_goals := g1, player2_goals := g2 }
                (MatchUpdate.mk m.player1_goals m.player2_goals) m.player1_id
                (m.player1_goals - g1) (m.player2_goals - g2))
              (updateFirst (keyPred m.player2_id)
                (editUpd m (MatchUpdate.mk g1 g2) m.player2_id
                  (g2 - m.player2_goals) (g1 - m.player1_goals))
                (updateFirst (keyPred m.player1_id)
                  (editUpd m (MatchUpdate.mk g1 g2) m.player1_id
                    (g1 - m.player1_goals) (g2 - m.player2_goals)) db.players))) :=
        editPlayerStep_eq_upd { m with player1_goals := g1, player2_goals := g2 }
          (MatchUpdate.mk m.player1_goals m.player2_goals) m.player2_id
          (m.player2_goals - g2) (m.player1_goals - g1) _ hs4
      rw [hA, hB, hC, hD, hmat]
      -- it remains to cancel the four player-document writes
      have hAB : ∀ x : Nat × Player,
          (fun y => editUpd { m with player1_goals := g1, player2_goals := g2 }
            (MatchUpdate.mk m.player1_goals m.player2_goals) m.player1_id
            (m.player1_goals - g1) (m.player2_goals - g2)
            (editUpd m (MatchUpdate.mk g1 g2) m.player1_id
              (g1 - m.player1_goals) (g2 - m.player2_goals) y)) x = (fun y => y) x :=
        fun x => congrArg (fun q => (x.1, q))
          (incPlayer_pair_cancel m g1 g2 (g1 - m.player1_goals) (g2 - m.player2_goals)
            (m.player1_goals - g1) (m.player2_goals - g2) m.player1_id x.2
            (by omega) (by omega))
      have hCD : ∀ x : Nat × Player,
          (fun y => editUpd { m with player1_goals := g1, player2_goals := g2 }
            (MatchUpdate.mk m.player1_goals m.player2_goals) m.player2_id
            (m.player2_goals - g2) (m.player1_goals - g1)
            (editUpd m (MatchUpdate.mk g1 g2) m.player2_id
              (g2 - m.player2_goals) (g1 - m.player1_goals) y)) x = (fun y => y) x :=
        fun x => congrArg (fun q => (x.1, q))
          (incPlayer_pair_cancel m g1 g2 (g2 - m.player2_goals) (g1 - m.player1_goals)
            (m.player2_goals - g2) (m.player1_goals - g1) m.player2_id x.2
            (by omega) (by omega))
      suffices hpl : updateFirst (keyPred m.player2_id)
          (editUpd { m with player1_goals := g1, player2_goals := g2 }
            (MatchUpdate.mk m.player1_goals m.player2_goals) m.player2_id
            (m.player2_goals - g2) (m.player1_goals - g1))
          (updateFirst (keyPred m.player1_id)
            (editUpd { m with player1_goals := g1, player2_goals := g2 }
              (MatchUpdate.mk m.player1_goals m.player2_goals) m.player1_id
              (m.player1_goals - g1) (m.player2_goals - g2))
            (updateFirst (keyPred m.player2_id)
              (editUpd m (MatchUpdate.mk g1 g2) m.player2_id
                (g2 - m.player2_goals) (g1 - m.player1_goals))
              (updateFirst (keyPred m.player1_id)
                (editUpd m (MatchUpdate.mk g1 g2) m.player1_id
                  (g1 - m.player1_goals) (g2 - m.player2_goals)) db.players))) =
          db.players by
        rw [hpl]
      by_cases hk : m.player1_id = m.player2_id
      · -- the match pits a player against itself: all four writes hit one key
        have hkp : keyPred m.player2_id = keyPred m.player1_id := by rw [hk]
        rw [hkp]
        rw [updateFirst_merge (keyPred m.player1_id)
          (editUpd m (MatchUpdate.mk g1 g2) m.player2_id
            (g2 - m.player2_goals) (g1 - m.player1_goals))
          (editUpd m (MatchUpdate.mk g1 g2) m.player1_id
            (g1 - m.player1_goals) (g2 - m.player2_goals)) db.players (fun x => rfl)]
        rw [updateFirst_merge (keyPred m.player1_id)
          (editUpd { m with player1_goals := g1, player2_goals := g2 }
            (MatchUpdate.mk m.player1_goals m.player2_goals) m.player1_id
            (m.player1_goals - g1) (m.player2_goals - g2))
          (fun x => editUpd m (MatchUpdate.mk g1 g2) m.player2_id
            (g2 - m.player2_goals) (g1 - m.player1_goals)
            (editUpd m (MatchUpdate.mk g1 g2) m.player1_id
              (g1 - m.player1_goals) (g2 - m.player2_goals) x)) db.players (fun x => rfl)]
        rw [updateFirst_merge (keyPred m.player1_id)
          (editUpd { m with player1_goals := g1, player2_goals := g2 }
            (MatchUpdate.mk m.player1_goals m.player2_goals) m.player2_id
            (m.player2_goals - g2) (m.player1_goals - g1))
          (fun x => editUpd { m with player1_goals := g1, player2_goals := g2 }
            (MatchUpdate.mk m.player1_goals m.player2_goals) m.player1_id
            (m.player1_goals - g1) (m.player2_goals - g2)
            ((fun x => editUpd m (MatchUpdate.mk g1 g2) m.player2_id
              (g2 - m.player2_goals) (g1 - m.player1_goals)
              (editUpd m (MatchUpdate.mk g1 g2) m.player1_id
                (g1 - m.player1_goals) (g2 - m.player2_goals) x)) x))
          db.players (fun x => rfl)]
        have hquad : ∀ x : Nat × Player,
            (fun x => editUpd { m with player1_goals := g1, player2_goals := g2 }
              (MatchUpdate.mk m.player1_goals m.player2_goals) m.player2_id
              (m.player2_goals - g2) (m.player1_goals - g1)
              ((fun x => editUpd { m with player1_goals := g1, player2_goals := g2 }
                (MatchUpdate.mk m.player1_goals m.player2_goals) m.player1_id
                (m.player1_goals - g1) (m.player2_goals - g2)
                ((fun x => editUpd m (MatchUpdate.mk g1 g2) m.player2_id
                  (g2 - m.player2_goals) (g1 - m.player1_goals)
                  (editUpd m (MatchUpdate.mk g1 g2) m.player1_id
                    (g1 - m.player1_goals) (g2 - m.player2_goals) x)) x)) x)) x =
            (fun y => y) x := by
          intro x
          have h1 := incPlayer_comm
            (editDeltaFor { m with player1_goals := g1, player2_goals := g2 }
              (MatchUpdate.mk m.player1_goals m.player2_goals) m.player1_id
              (m.player1_goals - g1) (m.player2_goals - g2))
            (editDeltaFor m (MatchUpdate.mk g1 g2) m.player2_id
              (g2 - m.player2_goals) (g1 - m.player1_goals))
            (incPlayer (editDeltaFor m (MatchUpdate.mk g1 g2) m.player1_id
              (g1 - m.player1_goals) (g2 - m.player2_goals)) x.2)
          have h2 := incPlayer_pair_cancel m g1 g2 (g1 - m.player1_goals)
            (g2 - m.player2_goals) (m.player1_goals - g1) (m.player2_goals - g2)
            m.player1_id x.2 (by omega) (by omega)
          have h3 := incPlayer_pair_cancel m g1 g2 (g2 - m.player2_goals)
            (g1 - m.player1_goals) (m.player2_goals - g2) (m.player1_goals - g1)
            m.player2_id x.2 (by omega) (by omega)
          show (x.1, incPlayer (editDeltaFor { m with player1_goals := g1, player2_goals := g2 }
              (MatchUpdate.mk m.player1_goals m.player2_goals) m.player2_id
              (m.player2_goals - g2) (m.player1_goals - g1))
            (incPlayer (editDeltaFor { m with player1_goals := g1, player2_goals := g2 }
              (MatchUpdate.mk m.player1_goals m.player2_goals) m.player1_id
              (m.player1_goals - g1) (m.player2_goals - g2))
            (incPlayer (editDeltaFor m (MatchUpdate.mk g1 g2) m.player2_id
              (g2 - m.player2_goals) (g1 - m.player1_goals))
            (incPlayer (editDeltaFor m (MatchUpdate.mk g1 g2) m.player1_id
              (g1 - m.player1_goals) (g2 - m.player2_goals)) x.2)))) = x
          rw [h1, h2, h3]
        rw [updateFirst_congr (keyPred m.player1_id)
          (fun x => editUpd { m with player1_goals := g1, player2_goals := g2 }
            (MatchUpdate.mk m.player1_goals m.player2_goals) m.player2_id
            (m.player2_goals - g2) (m.player1_goals - g1)
            ((fun x => editUpd { m with player1_goals := g1, player2_goals := g2 }
              (MatchUpdate.mk m.player1_goals m.player2_goals) m.player1_id
              (m.player1_goals - g1) (m.player2_goals - g2)
              ((fun x => editUpd m (MatchUpdate.mk g1 g2) m.player2_id
                (g2 - m.player2_goals) (g1 - m.player1_goals)
                (editUpd m (MatchUpdate.mk g1 g2) m.player1_id
                  (g1 - m.player1_goals) (g2 - m.player2_goals) x)) x)) x))
          (fun y => y) db.players hquad, updateFirst_id]
      · -- two distinct players: the writes on different keys commute
        have hdisj : ∀ x : Nat × Player,
            keyPred m.player2_id x = true → keyPred m.player1_id x = false := by
          intro x hx
          simp only [keyPred, beq_iff_eq] at hx
          simp only [keyPred, beq_eq_false_iff_ne, ne_eq]
          omega
        rw [updateFirst_comm (keyPred m.player2_id) (keyPred m.player1_id)
          (editUpd m (MatchUpdate.mk g1 g2) m.player2_id
            (g2 - m.player2_goals) (g1 - m.player1_goals))
          (editUpd { m with player1_goals := g1, player2_goals := g2 }
            (MatchUpdate.mk m.player1_goals m.player2_goals) m.player1_id
            (m.player1_goals - g1) (m.player2_goals - g2))
          (updateFirst (keyPred m.player1_id)
            (editUpd m (MatchUpdate.mk g1 g2) m.player1_id
              (g1 - m.player1_goals) (g2 - m.player2_goals)) db.players)
          hdisj (fun x => rfl) (fun x => rfl)]
        rw [updateFirst_merge (keyPred m.player1_id)
          (editUpd { m with player1_goals := g1, player2_goals := g2 }
            (MatchUpdate.mk m.player1_goals m.player2_goals) m.player1_id
            (m.player1_goals - g1) (m.player2_goals - g2))
          (editUpd m (MatchUpdate.mk g1 g2) m.player1_id
            (g1 - m.player1_goals) (g2 - m.player2_goals)) db.players (fun x => rfl)]
        rw [updateFirst_congr (keyPred m.player1_id) _ (fun y => y) db.players hAB,
          updateFirst_id]
        rw [updateFirst_merge (keyPred m.player2_id)
          (editUpd { m with player1_goals := g1, player2_goals := g2 }
            (MatchUpdate.mk m.player1_goals m.player2_goals) m.player2_id
            (m.player2_goals - g2) (m.player1_goals - g1))
          (editUpd m (MatchUpdate.mk g1 g2) m.player2_id
            (g2 - m.player2_goals) (g1 - m.player1_goals)) db.players (fun x => rfl)]
        rw [updateFirst_congr (keyPred m.player2_id) _ (fun y => y) db.players hCD,
          updateFirst_id]

/-- The stored 3:1 match of the C2 witness. -/
def c2match : MatchDoc :=
  { id := 5, player1_id := 1, player2_id := 2, player1_goals := 3, player2_goals := 1,
    date := ⟨0, 0⟩, team1 := "A", team2 := "B", tournament_id := none }

/-- Store for the C2 witness: Alice and Bob with the 3:1 match recorded. -/
def c2db : DB :=
  { players := [(1, { name := "Alice", total_matches := 1, total_goals_scored := 3,
                      total_goals_conceded := 1, goal_difference := 2, wins := 1,
                      losses := 0, draws := 0, points := 3 }),
                (2, { name := "Bob", total_matches := 1, total_goals_scored := 1,
                      total_goals_conceded := 3, goal_difference := -2, wins := 0,
                      losses := 1, draws := 0, points := 0 })]
    matchesColl := [c2match]
    nextId := 6 }

/-- Witness for C2: editing the 3:1 match of `c2db` to 1:1 and back to 3:1
succeeds and restores the store. -/
theorem update_match_roundtrip_witness :
    (updateMatch c2db 5 (MatchUpdate.mk 1 1)).toOption.isSome = true ∧
    (updateMatch (updateMatchStep c2db 5 (MatchUpdate.mk 1 1)) 5
        (MatchUpdate.mk c2match.player1_goals c2match.player2_goals)).toOption.isSome = true ∧
    updateMatchStep (updateMatchStep c2db 5 (MatchUpdate.mk 1 1)) 5
        (MatchUpdate.mk c2match.player1_goals c2match.player2_goals) = c2db :=
  update_match_roundtrip c2db 5 c2match 1 1 (by decide) (by decide) (by decide)
    (by decide) (by decide) (by decide) (by decide)

/-! ### Claim C8: update_match rejects negative goals before any mutation -/

/-- C8: when either new goal value is negative, PUT /matches/:id leaves the
store untouched, and when the match exists the handler reports the
invalid-input rejection (the check runs before the match write and before
any player update). -/
theorem update_match_negative_rejected (db : DB) (mid : Nat) (mu : MatchUpdate)
    (hneg : mu.player1_goals < 0 ∨ mu.player2_goals < 0) :
    updateMatchStep db mid mu = db ∧
    ((findMatch db mid).isSome = true → updateMatch db mid mu = .error .invalidInput) := by
  cases hf : db.matchesColl.find? (fun x => x.id == mid) with
  | none =>
    constructor
    · unfold updateMatchStep updateMatch
      rw [hf]
    · intro hs
      unfold findMatch at hs
      rw [hf] at hs
      simp at hs
  | some m =>
    have herr : updateMatch db mid mu = .error .invalidInput := by
      unfold updateMatch
      rw [hf]
      dsimp only
      rw [if_pos hneg]
    refine ⟨?_, fun _ => herr⟩
    unfold updateMatchStep
    rw [herr]

/-- Store for the C8 witness: one stored 3:1 match. -/
def c8db : DB :=
  { players := [(1, freshPlayer "Alice"), (2, freshPlayer "Bob")]
    matchesColl := [{ id := 5, player1_id := 1, player2_id := 2,
                      player1_goals := 3, player2_goals := 1,
                      date := ⟨0, 0⟩, team1 := "A", team2 := "B",
                      tournament_id := none }]
    nextId := 6 }

/-- Witness for C8: the edit of match 5 of `c8db` to goals (-1, 0) is
rejected and the store is unchanged. -/
theorem update_match_negative_rejected_witness :
    updateMatchStep c8db 5 (MatchUpdate.mk (-1) 0) = c8db ∧
    updateMatch c8db 5 (MatchUpdate.mk (-1) 0) = .error .invalidInput := by
  have h := update_match_negative_rejected c8db 5 (MatchUpdate.mk (-1) 0)
    (Or.inl (by decide))
  exact ⟨h.1, h.2 (by decide)⟩

/-! ### Claim C4: the winrate-over-time series -/

theorem takeRun_split (d : Nat) (l : List MatchDoc) :
    (takeRun d l).1 ++ (takeRun d l).2 = l := by
  induction l with
  | nil => rfl
  | cons x xs ih =>
    by_cases h : x.date.day = d <;> simp [takeRun, h, ih]

theorem takeRun_fst_day (d : Nat) (l : List MatchDoc) :
    ∀ x ∈ (takeRun d l).1, x.date.day = d := by
  induction l with
  | nil => simp [takeRun]
  | cons y ys ih =>
    by_cases h : y.date.day = d
    · intro x hx
      simp only [takeRun, h, if_pos] at hx
      rcases List.mem_cons.mp hx with rfl | hx
      · exact h
      · exact ih x hx
    · simp [takeRun, h]

theorem takeRun_snd_gt (d : Nat) (l : List MatchDoc)
    (hsorted : List.Pairwise (fun a b : MatchDoc => a.date.day ≤ b.date.day) l)
    (hge : ∀ x ∈ l, d ≤ x.date.day) :
    ∀ x ∈ (takeRun d l).2, d < x.date.day := by
  induction l with
  | nil => simp [takeRun]
  | cons y ys ih =>
    rw [List.pairwise_cons] at hsorted
    by_cases h : y.date.day = d
    · intro x hx
      simp only [takeRun, h, if_pos] at hx
      exact ih hsorted.2 (fun z hz => hge z (List.mem_cons_of_mem y hz)) x hx
    · intro x hx
      simp only [takeRun, h, if_neg] at hx
      rcases List.mem_cons.mp hx with rfl | hx
      · have h1 := hge x (List.mem_cons_self x ys)
        omega
      · have h1 := hge y (List.mem_cons_self y ys)
        have h2 := hsorted.1 x hx
        omega

theorem distinctDays_mem : ∀ (l : List Nat), ∀ x ∈ distinctDays l, x ∈ l := by
  have key : ∀ (n : Nat) (l : List Nat), l.length ≤ n → ∀ x ∈ distinctDays l, x ∈ l := by
    intro n
    induction n with
    | zero =>
      intro l hl x hx
      cases l with
      | nil => simp [distinctDays] at hx
      | cons d ds => simp at hl
    | succ n ih =>
      intro l hl x hx
      cases l with
      | nil => simp [distinctDays] at hx
      | cons d ds =>
        rw [distinctDays] at hx
        rcases List.mem_cons.mp hx with rfl | hx2
        · exact List.mem_cons_self x ds
        · have hlen : (ds.filter (fun y => y ≠ d)).length ≤ n := by
            have h1 := List.length_filter_le (fun y => y ≠ d) ds
            simp only [List.length_cons] at hl
            omega
          have h2 := ih _ hlen x hx2
          exact List.mem_cons_of_mem d (List.mem_of_mem_filter h2)
  exact fun l => key l.length l (le_refl _)

/-- The winrate loop on date-grouped runs computes, at each distinct date,
the running win rate over all matches up to and including that date, for
any starting cumulative counts. -/
theorem winrateLoop_spec : ∀ (n : Nat) (ms : List MatchDoc), ms.length ≤ n →
    ∀ (pid : Nat) (tm tw : Nat),
    List.Pairwise (fun a b : MatchDoc => a.date.day ≤ b.date.day) ms →
    winrateLoop pid (groupByDate ms) tm tw =
      (distinctDays (ms.map (fun m => m.date.day))).map (fun d =>
        (d, if tm + (ms.filter (fun m => m.date.day ≤ d)).length > 0
            then ((tw + (ms.filter (fun m => m.date.day ≤ d)).countP (isWin pid) : Nat) : ℚ) /
                 ((tm + (ms.filter (fun m => m.date.day ≤ d)).length : Nat) : ℚ)
            else 0)) := by
  intro n
  induction n with
  | zero =>
    intro ms hl pid tm tw hs
    cases ms with
    | nil => simp [groupByDate, winrateLoop, distinctDays]
    | cons m rest => simp at hl
  | succ n ih =>
    intro ms hl pid tm tw hs
    cases ms with
    | nil => simp [groupByDate, winrateLoop, distinctDays]
    | cons m rest =>
      rw [List.pairwise_cons] at hs
      have hsplit := takeRun_split m.date.day rest
      have hrun := takeRun_fst_day m.date.day rest
      have hgt := takeRun_snd_gt m.date.day rest hs.2 (fun x hx => hs.1 x hx)
      -- the days of the remaining suffix, after removing the leading run
      have hdays : ((rest.map (fun x => x.date.day)).filter (fun y => y ≠ m.date.day)) =
          (takeRun m.date.day rest).2.map (fun x => x.date.day) := by
        have hmap : rest.map (fun x => x.date.day) =
            (takeRun m.date.day rest).1.map (fun x => x.date.day) ++
            (takeRun m.date.day rest).2.map (fun x => x.date.day) := by
          rw [← List.map_append, hsplit]
        rw [hmap, List.filter_append]
        have h1 : ((takeRun m.date.day rest).1.map (fun x => x.date.day)).filter
            (fun y => y ≠ m.date.day) = [] := by
          rw [List.filter_eq_nil_iff]
          intro a ha
          rcases List.mem_map.mp ha with ⟨x, hx, rfl⟩
          simp [hrun x hx]
        have h2 : ((takeRun m.date.day rest).2.map (fun x => x.date.day)).filter
            (fun y => y ≠ m.date.day) =
            (takeRun m.date.day rest).2.map (fun x => x.date.day) := by
          rw [List.filter_eq_self]
          intro a ha
          rcases List.mem_map.mp ha with ⟨x, hx, rfl⟩
          have := hgt x hx
          simp
          omega
        rw [h1, h2, List.nil_append]
      -- matches up to and including the first day are exactly the leading run
      have hupTo : (m :: rest).filter (fun x => x.date.day ≤ m.date.day) =
          m :: (takeRun m.date.day rest).1 := by
        rw [List.filter_cons_of_pos (by simp)]
        congr 1
        conv_lhs => rw [← hsplit]
        rw [List.filter_append]
        have h1 : (takeRun m.date.day rest).1.filter
            (fun x => x.date.day ≤ m.date.day) = (takeRun m.date.day rest).1 := by
          rw [List.filter_eq_self]
          intro a ha
          simp [hrun a ha]
        have h2 : (takeRun m.date.day rest).2.filter
            (fun x => x.date.day ≤ m.date.day) = [] := by
          rw [List.filter_eq_nil_iff]
          intro a ha
          have := hgt a ha
          simp
          omega
        rw [h1, h2, List.append_nil]
      -- matches up to a later day: the whole run plus the filtered suffix
      have hupTo2 : ∀ d2 : Nat, m.date.day < d2 →
          (m :: rest).filter (fun x => x.date.day ≤ d2) =
          (m :: (takeRun m.date.day rest).1) ++
            (takeRun m.date.day rest).2.filter (fun x => x.date.day ≤ d2) := by
        intro d2 hd2
        rw [List.filter_cons_of_pos (by simp; omega)]
        rw [List.cons_append]
        congr 1
        conv_lhs => rw [← hsplit]
        rw [List.filter_append]
        congr 1
        rw [List.filter_eq_self]
        intro a ha
        have := hrun a ha
        simp
        omega
      -- the suffix after the run is still sorted and short enough
      have hsuffix : (takeRun m.date.day rest).2.Sublist rest := by
        conv_rhs => rw [← hsplit]
        exact List.sublist_append_right _ _
      have hsorted2 := hs.2.sublist hsuffix
      have hlen2 : (takeRun m.date.day rest).2.length ≤ n := by
        have h1 := takeRun_snd_length_le m.date.day rest
        simp only [List.length_cons] at hl
        omega
      -- unfold one group on the left and one distinct day on the right
      rw [groupByDate]
      simp only [winrateLoop]
      rw [List.map_cons, distinctDays, hdays, List.map_cons]
      rw [ih _ hlen2 pid _ _ hsorted2]
      congr 1
      · rw [hupTo]
      · rw [List.map_congr_left]
        intro d2 hd2
        have hmem := distinctDays_mem _ d2 hd2
        rcases List.mem_map.mp hmem with ⟨x, hx, rfl⟩
        have hlt : m.date.day < x.date.day := hgt x hx
        rw [hupTo2 x.date.day hlt]
        simp only [List.length_append, List.countP_append, List.length_cons]
        have ea : tm + ((takeRun m.date.day rest).1.length + 1) +
            (List.filter (fun y => decide (y.date.day ≤ x.date.day))
              (takeRun m.date.day rest).2).length =
            tm + ((takeRun m.date.day rest).1.length + 1 +
            (List.filter (fun y => decide (y.date.day ≤ x.date.day))
              (takeRun m.date.day rest).2).length) := by omega
        have eb : tw + List.countP (isWin pid) (m :: (takeRun m.date.day rest).1) +
            List.countP (isWin pid) (List.filter (fun y => decide (y.date.day ≤ x.date.day))
              (takeRun m.date.day rest).2) =
            tw + (List.countP (isWin pid) (m :: (takeRun m.date.day rest).1) +
            List.countP (isWin pid) (List.filter (fun y => decide (y.date.day ≤ x.date.day))
              (takeRun m.date.day rest).2)) := by omega
        rw [ea, eb]

theorem mem_insertSorted (le : α → α → Bool) (a b : α) (l : List α) :
    b ∈ insertSorted le a l ↔ b = a ∨ b ∈ l := by
  induction l with
  | nil => simp [insertSorted]
  | cons x xs ih =>
    by_cases h : le a x
    · simp [insertSorted, h]
    · simp [insertSorted, h, ih]
      tauto

theorem pairwise_insertSorted (le : α → α → Bool)
    (htot : ∀ a b, le a b = true ∨ le b a = true)
    (htrans : ∀ a b c, le a b = true → le b c = true → le a c = true)
    (a : α) (l : List α) (hl : List.Pairwise (fun x y => le x y = true) l) :
    List.Pairwise (fun x y => le x y = true) (insertSorted le a l) := by
  induction l with
  | nil => simp [insertSorted]
  | cons x xs ih =>
    rw [List.pairwise_cons] at hl
    by_cases h : le a x
    · simp only [insertSorted, h, if_pos]
      rw [List.pairwise_cons]
      constructor
      · intro b hb
        rcases List.mem_cons.mp hb with rfl | hb
        · exact h
        · exact htrans a x b h (hl.1 b hb)
      · rw [List.pairwise_cons]
        exact hl
    · rw [insertSorted, if_neg h]
      rw [List.pairwise_cons]
      constructor
      · intro b hb
        rcases (mem_insertSorted le a b xs).mp hb with hba | hb2
        · rcases htot a x with h2 | h2
          · exact absurd h2 (by simpa using h)
          · rw [hba]
            exact h2
        · exact hl.1 b hb2
      · exact ih hl.2

theorem pairwise_sortListBy (le : α → α → Bool)
    (htot : ∀ a b, le a b = true ∨ le b a = true)
    (htrans : ∀ a b c, le a b = true → le b c = true → le a c = true)
    (l : List α) :
    List.Pairwise (fun x y => le x y = true) (sortListBy le l) := by
  induction l with
  | nil => simp [sortListBy]
  | cons x xs ih => exact pairwise_insertSorted le htot htrans x _ ih

theorem dtLe_total (a b : DateTime) : dtLe a b = true ∨ dtLe b a = true := by
  simp [dtLe]
  omega

theorem dtLe_trans (a b c : DateTime) :
    dtLe a b = true → dtLe b c = true → dtLe a c = true := by
  simp [dtLe]
  omega

theorem dtLe_day {a b : DateTime} (h : dtLe a b = true) : a.day ≤ b.day := by
  simp [dtLe] at h
  omega

/-- The match list scanned by get_player_detailed_stats is sorted by
calendar day. -/
theorem detailedStatsMatches_sorted (db : DB) (pid : Nat) :
    List.Pairwise (fun a b : MatchDoc => a.date.day ≤ b.date.day)
      (detailedStatsMatches db pid) := by
  unfold detailedStatsMatches
  have h1 : List.Pairwise (fun a b : MatchDoc => dtLe a.date b.date = true)
      (sortListBy (fun a b => dtLe a.date b.date)
        (db.matchesColl.filter (involves pid))) :=
    pairwise_sortListBy (fun a b : MatchDoc => dtLe a.date b.date)
      (fun a b => dtLe_total a.date b.date)
      (fun a b c => dtLe_trans a.date b.date c.date) _
  have h2 := h1.sublist (List.take_sublist 1000 _)
  exact h2.imp (fun h => dtLe_day h)

theorem distinctDays_strict : ∀ (n : Nat) (l : List Nat), l.length ≤ n →
    List.Pairwise (· ≤ ·) l → List.Pairwise (· < ·) (distinctDays l) := by
  intro n
  induction n with
  | zero =>
    intro l hl hp
    cases l with
    | nil => simp [distinctDays]
    | cons d ds => simp at hl
  | succ n ih =>
    intro l hl hp
    cases l with
    | nil => simp [distinctDays]
    | cons d ds =>
      rw [List.pairwise_cons] at hp
      rw [distinctDays, List.pairwise_cons]
      constructor
      · intro y hy
        have hy2 := distinctDays_mem _ y hy
        have hy3 := List.mem_of_mem_filter hy2
        have hy4 : y ≠ d := by
          have := List.of_mem_filter hy2
          simpa using this
        have := hp.1 y hy3
        omega
      · have hlen : (ds.filter (fun y => y ≠ d)).length ≤ n := by
          have := List.length_filter_le (fun y => y ≠ d) ds
          simp only [List.length_cons] at hl
          omega
        exact ih _ hlen (hp.2.sublist (List.filter_sublist _))

/-- Scenario input of the spec: three wins on day 0 and one loss on day 1
for player 1. -/
def c4scenario : List MatchDoc :=
  [{ id := 0, player1_id := 1, player2_id := 2, player1_goals := 1, player2_goals := 0,
     date := ⟨0, 0⟩, team1 := "A", team2 := "B", tournament_id := none },
   { id := 1, player1_id := 1, player2_id := 2, player1_goals := 2, player2_goals := 0,
     date := ⟨0, 1⟩, team1 := "A", team2 := "B", tournament_id := none },
   { id := 2, player1_id := 1, player2_id := 2, player1_goals := 3, player2_goals := 1,
     date := ⟨0, 2⟩, team1 := "A", team2 := "B", tournament_id := none },
   { id := 3, player1_id := 1, player2_id := 2, player1_goals := 0, player2_goals := 1,
     date := ⟨1, 0⟩, team1 := "A", team2 := "B", tournament_id := none }]

/-- C4: over the match list scanned by get_player_detailed_stats (the
matches of the player, date ascending), the winrate-over-time loop emits
exactly one point per distinct calendar date, in strictly ascending date
order, whose winrate is the cumulative win count over the cumulative match
count of all matches up to and including that date; and on the spec
scenario (3 wins on day 0, 1 loss on day 1) it yields
[(day0, 1), (day1, 3/4)]. -/
theorem winrate_over_time_correct (db : DB) (pid : Nat) :
    winrate_over_time pid (detailedStatsMatches db pid) =
      winrateSpec pid (detailedStatsMatches db pid) ∧
    List.Pairwise (· < ·)
      ((winrate_over_time pid (detailedStatsMatches db pid)).map Prod.fst) ∧
    winrate_over_time 1 c4scenario = [(0, 1), (1, (3 : ℚ) / 4)] := by
  have hsorted := detailedStatsMatches_sorted db pid
  have h1 : winrate_over_time pid (detailedStatsMatches db pid) =
      winrateSpec pid (detailedStatsMatches db pid) := by
    unfold winrate_over_time winrateSpec
    rw [winrateLoop_spec (detailedStatsMatches db pid).length _ (le_refl _) pid 0 0 hsorted]
    simp only [Nat.zero_add]
  refine ⟨h1, ?_, ?_⟩
  · rw [h1]
    unfold winrateSpec
    rw [List.map_map]
    show List.Pairwise (· < ·) (List.map id
      (distinctDays ((detailedStatsMatches db pid).map (fun m => m.date.day))))
    rw [List.map_id]
    apply distinctDays_strict ((detailedStatsMatches db pid).map (fun m => m.date.day)).length
      _ (le_refl _)
    rw [List.pairwise_map]
    exact hsorted
  · simp [winrate_over_time, groupByDate, takeRun, winrateLoop, isWin,
      playerGoals, opponentGoals, c4scenario]

end FifaRivalry
